import Mathlib

/-!
Shallow embedding of the beneficiary-detail workflow of the credit-scoring
client (the `BeneficiaryDetail` component and its event handlers).

JavaScript numbers that cross the wire are modelled as `Rat` (all values the
claims exercise are finite decimals).  Absent / `null` / `undefined` fields are
modelled as `Option`.  JavaScript truthiness on a numeric field (`!x` is true
for `undefined`, `null` and `0`) is modelled by `truthyScore`; truthiness on a
string (`!s` is true for an absent or empty string) is folded into the
definitions that use it.

Each asynchronous handler is translated to a pure function from the component
state and the remote responses it consumes to the successor state, together
with the list of network calls it issues.  `toast.success` / `toast.error`
messages are accumulated in the state so that surfaced errors are observable,
and `navigate(...)` is modelled as a change of the `route` field.
-/

/-- A repayment-history entry as delivered by the server. -/
structure RepaymentRecord where
  loan_id : String
  amount_paid : Rat
  status : String
deriving DecidableEq

/-- The stored consumption sub-record of a beneficiary (server-side values). -/
structure StoredConsumption where
  electricity_kwh : Option Rat
  mobile_recharge_monthly : Option Rat
  utility_bill_avg : Option Rat
deriving DecidableEq

/-- The beneficiary snapshot returned by `GET /beneficiaries/:id`. -/
structure Beneficiary where
  id : String
  name : String
  business_type : String
  age : Nat
  loan_amount : Rat
  loan_tenure_months : Nat
  income_category : Option String
  consumption_data : Option StoredConsumption
  credit_score : Option Rat
  risk_band : Option String
  repayment_history : List RepaymentRecord
deriving DecidableEq

/-- The payload returned by `POST /beneficiaries/:id/score`. -/
structure ScoreResult where
  score : Rat
  explanation : String
  recommendations : List String
deriving DecidableEq

/-- The body sent by `POST /loans/apply`. -/
structure LoanApplication where
  beneficiary_id : String
  loan_amount : Rat
  loan_purpose : String
deriving DecidableEq

/-- The body sent by `PUT /beneficiaries/:id/consumption`; `none` is the
`null` the handler writes for a field whose parse came out falsy. -/
structure ConsumptionBody where
  electricity_kwh : Option Rat
  mobile_recharge_monthly : Option Rat
  utility_bill_avg : Option Rat
deriving DecidableEq

/-- A value held by a controlled form input: either a string (the initial
`''` or user-typed text) or a number (assigned from a loaded snapshot). -/
inductive FormVal where
  | str (s : String)
  | num (x : Rat)
deriving DecidableEq

/-- The `consumption` component state: one form value per field. -/
structure ConsumptionForm where
  electricity_kwh : FormVal
  mobile_recharge_monthly : FormVal
  utility_bill_avg : FormVal
deriving DecidableEq

/-- Error outcomes a remote call can produce (the error taxonomy of the
remote-service contract). -/
inductive RemoteErr where
  | notFound
  | unreachable
  | validationError
  | remoteComputationError
  | rejected (detail : String)
deriving DecidableEq

/-- A network call issued by a handler, with the request body where one is
sent. -/
inductive NetCall where
  | getBeneficiary (id : String)
  | postScore (id : String)
  | putConsumption (id : String) (body : ConsumptionBody)
  | postLoanApply (body : LoanApplication)
deriving DecidableEq

/-- The page currently shown; `navigate` moves between them. -/
inductive Route where
  | dashboard
  | detail
  | loans
deriving DecidableEq

/-- The component state of `BeneficiaryDetail`: the `useState` hooks plus the
route and the toast log. -/
structure SessionState where
  id : String
  route : Route
  beneficiary : Option Beneficiary
  loading : Bool
  calculating : Bool
  scoreResult : Option ScoreResult
  consumption : ConsumptionForm
  toasts : List String
deriving DecidableEq

/-- The initial component state for a detail page of beneficiary `id`:
`beneficiary = null`, `loading = true`, `calculating = false`,
`scoreResult = null`, every consumption field the empty string. -/
def initState (id : String) : SessionState :=
  { id := id
    route := Route.detail
    beneficiary := none
    loading := true
    calculating := false
    scoreResult := none
    consumption :=
      { electricity_kwh := FormVal.str ""
        mobile_recharge_monthly := FormVal.str ""
        utility_bill_avg := FormVal.str "" }
    toasts := [] }

/-- JavaScript truthiness of the numeric field `beneficiary.credit_score`:
`!score` is true exactly when the field is absent (`undefined`/`null`) or
equal to `0`. -/
def truthyScore : Option Rat → Bool
  | none => false
  | some x => if x = 0 then false else true

/-- Loading one stored consumption field into its form input:
`value || ''`, so an absent field and a stored `0` both become `''`, any
other number is kept as a number. -/
def loadField : Option Rat → FormVal
  | none => FormVal.str ""
  | some x => if x = 0 then FormVal.str "" else FormVal.num x

/-- The `setConsumption` performed by `loadBeneficiary` when the snapshot has
a truthy `consumption_data`; otherwise the form keeps its previous values. -/
def loadedForm (f : ConsumptionForm) (b : Beneficiary) : ConsumptionForm :=
  match b.consumption_data with
  | some cd =>
    { electricity_kwh := loadField cd.electricity_kwh
      mobile_recharge_monthly := loadField cd.mobile_recharge_monthly
      utility_bill_avg := loadField cd.utility_bill_avg }
  | none => f

/-- The `loadBeneficiary` handler: issues `GET /beneficiaries/:id`; on
success it stores the snapshot and populates the consumption form; on any
failure it toasts and navigates back to the dashboard.  `setLoading(false)`
runs in the `finally` block on both paths. -/
def loadBeneficiary (st : SessionState) (resp : Except RemoteErr Beneficiary) :
    SessionState × List NetCall :=
  match resp with
  | Except.ok b =>
    ({ st with
        beneficiary := some b
        consumption := loadedForm st.consumption b
        loading := false },
     [NetCall.getBeneficiary st.id])
  | Except.error _ =>
    ({ st with
        toasts := st.toasts ++ ["Failed to load beneficiary"]
        route := Route.dashboard
        loading := false },
     [NetCall.getBeneficiary st.id])

/-- The synchronous part of `calculateScore` before its `await`:
`setCalculating(true)` and the `POST .../score` request going out. -/
def beginScore (st : SessionState) : SessionState × NetCall :=
  ({ st with calculating := true }, NetCall.postScore st.id)

/-- The rest of `calculateScore` once the score response arrives: on success
store the `ScoreResult`, toast, and re-fetch the beneficiary; on failure only
toast.  `setCalculating(false)` runs in the `finally` block on both paths. -/
def finishScore (st : SessionState) (scoreResp : Except RemoteErr ScoreResult)
    (fetchResp : Except RemoteErr Beneficiary) : SessionState × List NetCall :=
  match scoreResp with
  | Except.ok r =>
    ({ (loadBeneficiary
          { st with
              scoreResult := some r
              toasts := st.toasts ++ ["Credit score calculated successfully!"] }
          fetchResp).1 with calculating := false },
     (loadBeneficiary
        { st with
            scoreResult := some r
            toasts := st.toasts ++ ["Credit score calculated successfully!"] }
        fetchResp).2)
  | Except.error _ =>
    ({ st with
        calculating := false
        toasts := st.toasts ++ ["Failed to calculate score"] }, [])

/-- The whole `calculateScore` handler, as the composition of its pre-await
and post-await parts. -/
def calculateScore (st : SessionState) (scoreResp : Except RemoteErr ScoreResult)
    (fetchResp : Except RemoteErr Beneficiary) : SessionState × List NetCall :=
  ((finishScore (beginScore st).1 scoreResp fetchResp).1,
   (beginScore st).2 :: (finishScore (beginScore st).1 scoreResp fetchResp).2)

/-- A click on the Calculate Score / Recalculate Score button: both buttons
are rendered with `disabled={calculating}`, so a click while a computation is
in flight does nothing at all. -/
def clickCalculateScore (st : SessionState) (scoreResp : Except RemoteErr ScoreResult)
    (fetchResp : Except RemoteErr Beneficiary) : SessionState × List NetCall :=
  if st.calculating then (st, []) else calculateScore st scoreResp fetchResp

/-- The digits of a character list read as a decimal natural number. -/
def digitsToNat (cs : List Char) : Nat :=
  cs.foldl (fun a c => a * 10 + (c.toNat - 48)) 0

/-- JavaScript `parseFloat` on a string, for the inputs a number-typed form
field can hold: optional sign, integer digits, optional fraction digits.
`none` is `NaN` (in particular `parseFloat('') = NaN`). -/
def parseFloatStr (s : String) : Option Rat :=
  let cs := s.toList.dropWhile (fun c => c = ' ')
  let neg : Bool :=
    match cs with
    | '-' :: _ => true
    | _ => false
  let cs' : List Char :=
    match cs with
    | '-' :: rest => rest
    | '+' :: rest => rest
    | _ => cs
  let intPart := cs'.takeWhile Char.isDigit
  let rest := cs'.drop intPart.length
  let fracPart : List Char :=
    match rest with
    | '.' :: r => r.takeWhile Char.isDigit
    | _ => []
  if intPart.isEmpty && fracPart.isEmpty then none
  else
    let mag : Rat :=
      (digitsToNat intPart : Rat) + (digitsToNat fracPart : Rat) / ((10 : Rat) ^ fracPart.length)
    some (if neg then -mag else mag)

/-- `parseFloat` applied to a form value.  On a number JavaScript stringifies
and re-parses, which is the identity on the finite numbers that occur here. -/
def jsParseFloat : FormVal → Option Rat
  | FormVal.str s => parseFloatStr s
  | FormVal.num x => some x

/-- One field of the PUT body: `parseFloat(v) || null`, so `NaN` (blank or
unparsable input) and a parsed `0` are both sent as `null`. -/
def encodeField (v : FormVal) : Option Rat :=
  match jsParseFloat v with
  | none => none
  | some x => if x = 0 then none else some x

/-- The body `updateConsumption` sends from the current form state. -/
def consumptionBody (f : ConsumptionForm) : ConsumptionBody :=
  { electricity_kwh := encodeField f.electricity_kwh
    mobile_recharge_monthly := encodeField f.mobile_recharge_monthly
    utility_bill_avg := encodeField f.utility_bill_avg }

/-- The `updateConsumption` handler: `PUT .../consumption` with the encoded
body; on success toast and re-fetch the beneficiary, on failure only toast. -/
def updateConsumption (st : SessionState) (putResp : Except RemoteErr Unit)
    (fetchResp : Except RemoteErr Beneficiary) : SessionState × List NetCall :=
  match putResp with
  | Except.ok _ =>
    ((loadBeneficiary
        { st with toasts := st.toasts ++ ["Consumption data updated!"] } fetchResp).1,
     NetCall.putConsumption st.id (consumptionBody st.consumption) ::
       (loadBeneficiary
          { st with toasts := st.toasts ++ ["Consumption data updated!"] } fetchResp).2)
  | Except.error _ =>
    ({ st with toasts := st.toasts ++ ["Failed to update consumption data"] },
     [NetCall.putConsumption st.id (consumptionBody st.consumption)])

/-- Outcome of a loan-application attempt, naming which branch of `applyLoan`
ran: the client-side guard, the success path, or the catch block. -/
inductive LoanOutcome where
  | preconditionFailed
  | submitted
  | failed (msg : String)
deriving DecidableEq

/-- The toast text of the `applyLoan` catch block:
`error.response?.data?.detail || 'Failed to apply for loan'`. -/
def loanFailureMessage : RemoteErr → String
  | RemoteErr.rejected detail =>
      if detail = "" then "Failed to apply for loan" else detail
  | _ => "Failed to apply for loan"

/-- The `applyLoan` handler.  `b` is the component's non-null `beneficiary`.
If `!beneficiary.credit_score` the handler toasts and returns before any
request; otherwise it posts the fixed-shape application body and on success
navigates to the loans page. -/
def applyLoan (st : SessionState) (b : Beneficiary) (resp : Except RemoteErr Unit) :
    SessionState × List NetCall × LoanOutcome :=
  if truthyScore b.credit_score = false then
    ({ st with toasts := st.toasts ++ ["Please calculate credit score first"] },
     [], LoanOutcome.preconditionFailed)
  else
    match resp with
    | Except.ok _ =>
      ({ st with
          toasts := st.toasts ++ ["Loan application submitted!"]
          route := Route.loans },
       [NetCall.postLoanApply
          { beneficiary_id := b.id, loan_amount := b.loan_amount,
            loan_purpose := "Business expansion" }],
       LoanOutcome.submitted)
    | Except.error e =>
      ({ st with toasts := st.toasts ++ [loanFailureMessage e] },
       [NetCall.postLoanApply
          { beneficiary_id := b.id, loan_amount := b.loan_amount,
            loan_purpose := "Business expansion" }],
       LoanOutcome.failed (loanFailureMessage e))

/-- Whether some needle occurs as a contiguous run in a character list
(the semantics of JavaScript `String.prototype.includes`). -/
def leadMatch : List Char → List Char → Bool
  | [], _ => true
  | _ :: _, [] => false
  | p :: ps, c :: cs => (p = c) && leadMatch ps cs

/-- Scan helper for `jsIncludes`: try a match at every start position. -/
def includesFrom (pat : List Char) : List Char → Bool
  | [] => pat.isEmpty
  | c :: cs => leadMatch pat (c :: cs) || includesFrom pat cs

/-- JavaScript `s.includes(pat)`. -/
def jsIncludes (s pat : String) : Bool :=
  includesFrom pat.toList s.toList

/-- The `getRiskColor` helper: a falsy band (absent or empty) is grey, then
the first matching substring of `'Low Risk'`, `'Medium Risk'` wins, and every
other label falls through to red. -/
def getRiskColor (riskBand : Option String) : String :=
  match riskBand with
  | none => "bg-gray-500"
  | some s =>
    if s = "" then "bg-gray-500"
    else if jsIncludes s "Low Risk" then "bg-green-500"
    else if jsIncludes s "Medium Risk" then "bg-yellow-500"
    else "bg-red-500"

/-- The workflow sub-states of a loaded session that the claims speak about. -/
inductive SubState where
  | unscored
  | scoring
  | scored
deriving DecidableEq

/-- The sub-state the rendered page is in: Scoring while `calculating` is
set, otherwise Scored or Unscored by the truthiness of
`beneficiary.credit_score` (the condition choosing between the score card and
the calculate card). -/
def subState (st : SessionState) : SubState :=
  if st.calculating then SubState.scoring
  else
    match st.beneficiary with
    | some b => if truthyScore b.credit_score then SubState.scored else SubState.unscored
    | none => SubState.unscored

/-- The state after a fully successful `calculateScore` round: the score
response `r` and the follow-up snapshot `b` both arrive. -/
def afterScore (st : SessionState) (r : ScoreResult) (b : Beneficiary) : SessionState :=
  (calculateScore st (Except.ok r) (Except.ok b)).1

/-- A sample unscored beneficiary used to instantiate hypotheses. -/
def sampleBeneficiary : Beneficiary :=
  { id := "b1"
    name := "Asha"
    business_type := "Tailoring"
    age := 34
    loan_amount := 50000
    loan_tenure_months := 12
    income_category := none
    consumption_data := none
    credit_score := none
    risk_band := none
    repayment_history := [] }

/-- The sample beneficiary after the server has scored it. -/
def sampleScored : Beneficiary :=
  { sampleBeneficiary with credit_score := some 72, risk_band := some "Low Risk - stable" }

/-- The sample beneficiary with a computed score of exactly zero. -/
def sampleZeroScored : Beneficiary :=
  { sampleBeneficiary with credit_score := some 0 }

/-- A loaded detail-page state holding the scored sample beneficiary. -/
def sampleState : SessionState :=
  { id := "b1"
    route := Route.detail
    beneficiary := some sampleScored
    loading := false
    calculating := false
    scoreResult := none
    consumption :=
      { electricity_kwh := FormVal.str ""
        mobile_recharge_monthly := FormVal.str ""
        utility_bill_avg := FormVal.str "" }
    toasts := [] }

/-- A sample score response. -/
def sampleScoreResult : ScoreResult :=
  { score := 72, explanation := "Consistent repayment", recommendations := ["Maintain usage"] }

/-- A second, distinct sample score response. -/
def sampleScoreResult2 : ScoreResult :=
  { score := 75, explanation := "Improved consumption", recommendations := [] }

/-- C1: when `credit_score` is absent, `applyLoan` issues no network call,
fails with the precondition outcome, and only surfaces the guard's message. -/
theorem applyLoan_absent_score (st : SessionState) (b : Beneficiary)
    (resp : Except RemoteErr Unit) (h : b.credit_score = none) :
    (applyLoan st b resp).2.1 = []
    ∧ (applyLoan st b resp).2.2 = LoanOutcome.preconditionFailed
    ∧ (applyLoan st b resp).1 =
        { st with toasts := st.toasts ++ ["Please calculate credit score first"] } := by
  simp [applyLoan, truthyScore, h]

theorem applyLoan_absent_score_witness :
    (applyLoan sampleState sampleBeneficiary (Except.ok ())).2.1 = []
    ∧ (applyLoan sampleState sampleBeneficiary (Except.ok ())).2.2 = LoanOutcome.preconditionFailed
    ∧ (applyLoan sampleState sampleBeneficiary (Except.ok ())).1 =
        { sampleState with
            toasts := sampleState.toasts ++ ["Please calculate credit score first"] } :=
  applyLoan_absent_score sampleState sampleBeneficiary (Except.ok ()) rfl

/-- C9: a present `credit_score` equal to `0` is falsy, so `applyLoan` takes
the same guard branch as an absent score: precondition failure, no network
call, even though a score has been computed. -/
theorem applyLoan_zero_score (st : SessionState) (b : Beneficiary)
    (resp : Except RemoteErr Unit) (h : b.credit_score = some 0) :
    (applyLoan st b resp).2.1 = []
    ∧ (applyLoan st b resp).2.2 = LoanOutcome.preconditionFailed
    ∧ (applyLoan st b resp).1 =
        { st with toasts := st.toasts ++ ["Please calculate credit score first"] } := by
  simp [applyLoan, truthyScore, h]

theorem applyLoan_zero_score_witness :
    (applyLoan sampleState sampleZeroScored (Except.ok ())).2.1 = []
    ∧ (applyLoan sampleState sampleZeroScored (Except.ok ())).2.2 = LoanOutcome.preconditionFailed
    ∧ (applyLoan sampleState sampleZeroScored (Except.ok ())).1 =
        { sampleState with
            toasts := sampleState.toasts ++ ["Please calculate credit score first"] } :=
  applyLoan_zero_score sampleState sampleZeroScored (Except.ok ()) rfl

/-- C10: every loan application `applyLoan` posts carries the constant
purpose `'Business expansion'` and the beneficiary's stored `loan_amount`;
no other body can be emitted through this handler. -/
theorem applyLoan_fixed_purpose (st : SessionState) (b : Beneficiary)
    (resp : Except RemoteErr Unit) (la : LoanApplication)
    (h : NetCall.postLoanApply la ∈ (applyLoan st b resp).2.1) :
    la.loan_purpose = "Business expansion"
    ∧ la.loan_amount = b.loan_amount
    ∧ la.beneficiary_id = b.id := by
  by_cases hg : truthyScore b.credit_score = false
  · simp [applyLoan, hg] at h
  · cases resp with
    | ok u =>
      simp [applyLoan, hg] at h
      subst h
      exact ⟨rfl, rfl, rfl⟩
    | error e =>
      simp [applyLoan, hg] at h
      subst h
      exact ⟨rfl, rfl, rfl⟩

theorem applyLoan_fixed_purpose_witness :
    ({ beneficiary_id := "b1", loan_amount := 50000,
       loan_purpose := "Business expansion" } : LoanApplication).loan_purpose
        = "Business expansion"
    ∧ ({ beneficiary_id := "b1", loan_amount := 50000,
         loan_purpose := "Business expansion" } : LoanApplication).loan_amount
        = sampleScored.loan_amount
    ∧ ({ beneficiary_id := "b1", loan_amount := 50000,
         loan_purpose := "Business expansion" } : LoanApplication).beneficiary_id
        = sampleScored.id :=
  applyLoan_fixed_purpose sampleState sampleScored (Except.ok ()) _ (by decide)

/-- The sample beneficiary with a stored, measured electricity value of `0`. -/
def benZeroElectricity : Beneficiary :=
  { sampleBeneficiary with
      consumption_data :=
        some { electricity_kwh := some 0
               mobile_recharge_monthly := none
               utility_bill_avg := none } }

/-- C2: the round trip destroys a measured zero.  Loading a snapshot whose
stored `electricity_kwh` is `0` puts `''` into the form (because of
`value || ''`), and saving the untouched form encodes that field as `null`
(because of `parseFloat(v) || null`), so the stored `0` comes back as absent
rather than `0`.  The last conjunct records the part of the claim the code
does satisfy: a blank field is encoded as absent, never as `0`. -/
theorem consumption_zero_roundtrip_lost :
    (loadBeneficiary (initState "b1") (Except.ok benZeroElectricity)).1.consumption.electricity_kwh
        = FormVal.str ""
    ∧ (consumptionBody
        (loadBeneficiary (initState "b1") (Except.ok benZeroElectricity)).1.consumption).electricity_kwh
        = none
    ∧ encodeField (FormVal.str "") = none := by
  refine ⟨rfl, ?_, rfl⟩
  rfl

/-- C3 counterexample: a successful `applyLoan` on a scored beneficiary
issues only the loan POST — no `GET /beneficiaries/:id` follows, and the
stored snapshot is left exactly as it was, so loan submission does not
re-fetch the Beneficiary. -/
theorem applyLoan_no_refetch :
    (applyLoan sampleState sampleScored (Except.ok ())).2.1 =
        [NetCall.postLoanApply
          { beneficiary_id := "b1", loan_amount := 50000,
            loan_purpose := "Business expansion" }]
    ∧ NetCall.getBeneficiary "b1" ∉ (applyLoan sampleState sampleScored (Except.ok ())).2.1
    ∧ (applyLoan sampleState sampleScored (Except.ok ())).1.beneficiary = some sampleScored := by
  refine ⟨rfl, by decide, rfl⟩

/-- C3 amended: on success, the consumption update and the score computation
each follow their mutation with a re-fetch of the beneficiary snapshot, while
a successful loan submission issues only the loan POST and navigates to the
loans page instead of re-fetching. -/
theorem refresh_after_mutation (st : SessionState) (b : Beneficiary)
    (r : ScoreResult) (f : Except RemoteErr Beneficiary)
    (hs : truthyScore b.credit_score = true) :
    (calculateScore st (Except.ok r) f).2 =
        [NetCall.postScore st.id, NetCall.getBeneficiary st.id]
    ∧ (updateConsumption st (Except.ok ()) f).2 =
        [NetCall.putConsumption st.id (consumptionBody st.consumption),
         NetCall.getBeneficiary st.id]
    ∧ (applyLoan st b (Except.ok ())).2.1 =
        [NetCall.postLoanApply
          { beneficiary_id := b.id, loan_amount := b.loan_amount,
            loan_purpose := "Business expansion" }]
    ∧ (applyLoan st b (Except.ok ())).1.route = Route.loans := by
  refine ⟨?_, ?_, ?_, ?_⟩
  · cases f with
    | ok nb => rfl
    | error e => rfl
  · cases f with
    | ok nb => rfl
    | error e => rfl
  · simp [applyLoan, hs]
  · simp [applyLoan, hs]

theorem refresh_after_mutation_witness :
    (calculateScore sampleState (Except.ok sampleScoreResult) (Except.ok sampleScored)).2 =
        [NetCall.postScore "b1", NetCall.getBeneficiary "b1"]
    ∧ (updateConsumption sampleState (Except.ok ()) (Except.ok sampleScored)).2 =
        [NetCall.putConsumption "b1" (consumptionBody sampleState.consumption),
         NetCall.getBeneficiary "b1"]
    ∧ (applyLoan sampleState sampleScored (Except.ok ())).2.1 =
        [NetCall.postLoanApply
          { beneficiary_id := "b1", loan_amount := 50000,
            loan_purpose := "Business expansion" }]
    ∧ (applyLoan sampleState sampleScored (Except.ok ())).1.route = Route.loans :=
  refresh_after_mutation sampleState sampleScored sampleScoreResult
    (Except.ok sampleScored) (by decide)

/-- C4: while a score computation is in flight (`calculating` set, the
Scoring sub-state), a duplicate click on the score button is rejected by the
disabled guard: the state is untouched and no network call is issued. -/
theorem scoring_duplicate_rejected (st : SessionState)
    (r : Except RemoteErr ScoreResult) (f : Except RemoteErr Beneficiary)
    (h : st.calculating = true) :
    clickCalculateScore st r f = (st, []) ∧ subState st = SubState.scoring := by
  constructor
  · simp [clickCalculateScore, h]
  · simp [subState, h]

theorem scoring_duplicate_rejected_witness :
    clickCalculateScore { sampleState with calculating := true }
        (Except.ok sampleScoreResult) (Except.ok sampleScored) =
        ({ sampleState with calculating := true }, [])
    ∧ subState { sampleState with calculating := true } = SubState.scoring :=
  scoring_duplicate_rejected { sampleState with calculating := true }
    (Except.ok sampleScoreResult) (Except.ok sampleScored) rfl

/-- C8: a failed load (unknown id answered with NotFound) never populates a
Beneficiary: starting from a session with no beneficiary, the handler leaves
`beneficiary` empty, keeps the form untouched, surfaces the failure toast,
and navigates away (the terminal Error exit), after having issued exactly the
one GET. -/
theorem loadBeneficiary_notFound (st : SessionState) (h : st.beneficiary = none) :
    (loadBeneficiary st (Except.error RemoteErr.notFound)).1.beneficiary = none
    ∧ (loadBeneficiary st (Except.error RemoteErr.notFound)).1.consumption = st.consumption
    ∧ (loadBeneficiary st (Except.error RemoteErr.notFound)).1.scoreResult = st.scoreResult
    ∧ (loadBeneficiary st (Except.error RemoteErr.notFound)).1.toasts =
        st.toasts ++ ["Failed to load beneficiary"]
    ∧ (loadBeneficiary st (Except.error RemoteErr.notFound)).1.route = Route.dashboard
    ∧ (loadBeneficiary st (Except.error RemoteErr.notFound)).1.loading = false
    ∧ (loadBeneficiary st (Except.error RemoteErr.notFound)).2 =
        [NetCall.getBeneficiary st.id] := by
  simp [loadBeneficiary, h]

theorem loadBeneficiary_notFound_witness :
    (loadBeneficiary (initState "b9") (Except.error RemoteErr.notFound)).1.beneficiary = none
    ∧ (loadBeneficiary (initState "b9") (Except.error RemoteErr.notFound)).1.consumption =
        (initState "b9").consumption
    ∧ (loadBeneficiary (initState "b9") (Except.error RemoteErr.notFound)).1.scoreResult =
        (initState "b9").scoreResult
    ∧ (loadBeneficiary (initState "b9") (Except.error RemoteErr.notFound)).1.toasts =
        (initState "b9").toasts ++ ["Failed to load beneficiary"]
    ∧ (loadBeneficiary (initState "b9") (Except.error RemoteErr.notFound)).1.route =
        Route.dashboard
    ∧ (loadBeneficiary (initState "b9") (Except.error RemoteErr.notFound)).1.loading = false
    ∧ (loadBeneficiary (initState "b9") (Except.error RemoteErr.notFound)).2 =
        [NetCall.getBeneficiary "b9"] :=
  loadBeneficiary_notFound (initState "b9") rfl

/-- C5 counterexample: the substring checks are ordered, so a label that
contains both `'Low Risk'` and `'Medium Risk'` takes the first branch and
maps to the low category (green), not to medium (yellow), refuting the claim
that any label containing `'Medium Risk'` maps to medium. -/
theorem getRiskColor_overlap :
    jsIncludes "Low Risk Medium Risk" "Medium Risk" = true
    ∧ getRiskColor (some "Low Risk Medium Risk") = "bg-green-500"
    ∧ "bg-green-500" ≠ "bg-yellow-500" := by
  refine ⟨by decide, by decide, by decide⟩

/-- C5 amended: `getRiskColor` is a total function of its argument; an
absent label maps to the unknown category (grey), a label containing
`'Low Risk'` maps to low (green), a label containing `'Medium Risk'` but not
`'Low Risk'` maps to medium (yellow), and the label `'High Risk - volatile'`
maps to high (red). -/
theorem getRiskColor_total_mapping :
    getRiskColor none = "bg-gray-500"
    ∧ (∀ s, jsIncludes s "Low Risk" = true → getRiskColor (some s) = "bg-green-500")
    ∧ (∀ s, jsIncludes s "Medium Risk" = true → jsIncludes s "Low Risk" = false →
        getRiskColor (some s) = "bg-yellow-500")
    ∧ getRiskColor (some "High Risk - volatile") = "bg-red-500" := by
  refine ⟨rfl, ?_, ?_, by decide⟩
  · intro s h
    by_cases he : s = ""
    · subst he
      exact absurd h (by decide)
    · simp [getRiskColor, he, h]
  · intro s h1 h2
    by_cases he : s = ""
    · subst he
      exact absurd h1 (by decide)
    · simp [getRiskColor, he, h1, h2]

theorem getRiskColor_total_mapping_witness :
    getRiskColor (some "Medium Risk - watch closely") = "bg-yellow-500" :=
  getRiskColor_total_mapping.2.2.1 "Medium Risk - watch closely" (by decide) (by decide)

/-- C6: when the score computation fails, the handler only toasts the
failure: the stored Beneficiary record, the held ScoreResult, the consumption
form, and the sub-state (Unscored or Scored, as the session was not already
Scoring) are all exactly as before the call. -/
theorem scoreFailure_state_unchanged (st : SessionState) (e : RemoteErr)
    (f : Except RemoteErr Beneficiary) (h : st.calculating = false) :
    (calculateScore st (Except.error e) f).1.beneficiary = st.beneficiary
    ∧ (calculateScore st (Except.error e) f).1.scoreResult = st.scoreResult
    ∧ (calculateScore st (Except.error e) f).1.consumption = st.consumption
    ∧ subState (calculateScore st (Except.error e) f).1 = subState st
    ∧ (calculateScore st (Except.error e) f).1.toasts =
        st.toasts ++ ["Failed to calculate score"] := by
  simp [calculateScore, beginScore, finishScore, subState, h]

theorem scoreFailure_state_unchanged_witness :
    (calculateScore sampleState (Except.error RemoteErr.remoteComputationError)
        (Except.error RemoteErr.unreachable)).1.beneficiary = sampleState.beneficiary
    ∧ (calculateScore sampleState (Except.error RemoteErr.remoteComputationError)
        (Except.error RemoteErr.unreachable)).1.scoreResult = sampleState.scoreResult
    ∧ (calculateScore sampleState (Except.error RemoteErr.remoteComputationError)
        (Except.error RemoteErr.unreachable)).1.consumption = sampleState.consumption
    ∧ subState (calculateScore sampleState (Except.error RemoteErr.remoteComputationError)
        (Except.error RemoteErr.unreachable)).1 = subState sampleState
    ∧ (calculateScore sampleState (Except.error RemoteErr.remoteComputationError)
        (Except.error RemoteErr.unreachable)).1.toasts =
        sampleState.toasts ++ ["Failed to calculate score"] :=
  scoreFailure_state_unchanged sampleState RemoteErr.remoteComputationError
    (Except.error RemoteErr.unreachable) rfl

/-- C7: `calculateScore` is re-entrant.  From an Unscored session, a first
successful round passes through Scoring into Scored holding exactly the first
ScoreResult; the score button then accepts a second request (the disabled
guard does not reject it), which passes through Scoring into Scored again,
replaces the held ScoreResult with the second one, and refreshes the
Beneficiary snapshot to the newly fetched one. -/
theorem computeScore_reentrant (st : SessionState) (b0 b1 b2 : Beneficiary)
    (r1 r2 : ScoreResult)
    (hc : st.calculating = false) (hb : st.beneficiary = some b0)
    (h0 : truthyScore b0.credit_score = false)
    (h1 : truthyScore b1.credit_score = true)
    (h2 : truthyScore b2.credit_score = true) :
    subState st = SubState.unscored
    ∧ subState (beginScore st).1 = SubState.scoring
    ∧ subState (afterScore st r1 b1) = SubState.scored
    ∧ (afterScore st r1 b1).scoreResult = some r1
    ∧ clickCalculateScore (afterScore st r1 b1) (Except.ok r2) (Except.ok b2)
        = calculateScore (afterScore st r1 b1) (Except.ok r2) (Except.ok b2)
    ∧ subState (beginScore (afterScore st r1 b1)).1 = SubState.scoring
    ∧ subState (afterScore (afterScore st r1 b1) r2 b2) = SubState.scored
    ∧ (afterScore (afterScore st r1 b1) r2 b2).scoreResult = some r2
    ∧ (afterScore (afterScore st r1 b1) r2 b2).beneficiary = some b2 := by
  refine ⟨?_, ?_, ?_, ?_, ?_, ?_, ?_, ?_, ?_⟩
  · simp [subState, hc, hb, h0]
  · simp [subState, beginScore]
  · simp [afterScore, calculateScore, beginScore, finishScore, loadBeneficiary, subState, h1]
  · simp [afterScore, calculateScore, beginScore, finishScore, loadBeneficiary]
  · simp [clickCalculateScore, afterScore, calculateScore, beginScore, finishScore,
      loadBeneficiary]
  · simp [subState, beginScore]
  · simp [afterScore, calculateScore, beginScore, finishScore, loadBeneficiary, subState, h2]
  · simp [afterScore, calculateScore, beginScore, finishScore, loadBeneficiary]
  · simp [afterScore, calculateScore, beginScore, finishScore, loadBeneficiary]

theorem computeScore_reentrant_witness :
    subState { sampleState with beneficiary := some sampleBeneficiary } = SubState.unscored
    ∧ subState (beginScore { sampleState with beneficiary := some sampleBeneficiary }).1 =
        SubState.scoring
    ∧ subState (afterScore { sampleState with beneficiary := some sampleBeneficiary }
        sampleScoreResult sampleScored) = SubState.scored
    ∧ (afterScore { sampleState with beneficiary := some sampleBeneficiary }
        sampleScoreResult sampleScored).scoreResult = some sampleScoreResult
    ∧ clickCalculateScore (afterScore { sampleState with beneficiary := some sampleBeneficiary }
            sampleScoreResult sampleScored)
        (Except.ok sampleScoreResult2) (Except.ok sampleScored)
        = calculateScore (afterScore { sampleState with beneficiary := some sampleBeneficiary }
            sampleScoreResult sampleScored)
          (Except.ok sampleScoreResult2) (Except.ok sampleScored)
    ∧ subState (beginScore (afterScore { sampleState with beneficiary := some sampleBeneficiary }
        sampleScoreResult sampleScored)).1 = SubState.scoring
    ∧ subState (afterScore (afterScore { sampleState with beneficiary := some sampleBeneficiary }
        sampleScoreResult sampleScored) sampleScoreResult2 sampleScored) = SubState.scored
    ∧ (afterScore (afterScore { sampleState with beneficiary := some sampleBeneficiary }
        sampleScoreResult sampleScored) sampleScoreResult2 sampleScored).scoreResult =
        some sampleScoreResult2
    ∧ (afterScore (afterScore { sampleState with beneficiary := some sampleBeneficiary }
        sampleScoreResult sampleScored) sampleScoreResult2 sampleScored).beneficiary =
        some sampleScored :=
  computeScore_reentrant { sampleState with beneficiary := some sampleBeneficiary }
    sampleBeneficiary sampleScored sampleScored sampleScoreResult sampleScoreResult2
    rfl rfl (by decide) (by decide) (by decide)
